import Mathlib

/-!
Shallow embedding of `Backup-services/app.py` (a PostgreSQL backup pipeline:
pg_dump to a temp file, optional gzip compression, upload to a GCS bucket,
temp-file cleanup in a `finally` block; plus a CLI `main` and a Flask app
with a health route and a backup trigger route).

External effects (the subprocess, the gzip library, the GCS client, and
`os.remove`) are modelled by an oracle `World` fixed for one run; the run
produces an event trace, a final temp-file store, and a result of type
`Except PyError BackupResult`, mirroring Python's raised exceptions.
-/

namespace BackupApp

/-- Process environment: the five variables read by app.py.
`BACKUP_PFX` models the variable named BACKUP_PREFIX in the source. -/
structure Env where
  DATABASE_URL : Option String
  BUCKET_NAME : Option String
  BACKUP_PFX : Option String
  PG_DUMP_PATH : Option String
  BACKUP_COMPRESS : Option String
deriving Repr, DecidableEq

/-- Python `x or y` on an optional string and an optional string:
`None` and the empty string are falsy, so they fall through to `y`
(app.py lines 43-44). -/
def pyOr (x y : Option String) : Option String :=
  match x with
  | some s => if s = "" then y else some s
  | none => y

/-- Python `backup_prefix or os.environ.get("BACKUP_PREFIX", "")`
(app.py line 45): a truthy explicit argument wins, otherwise the
environment value with default the empty string. -/
def resolvePfx (arg : Option String) (env : Env) : String :=
  match pyOr arg env.BACKUP_PFX with
  | some s => s
  | none => ""

/-- Python truthiness test `not v` for an optional string:
true when the value is absent or empty. -/
def isFalsy (x : Option String) : Bool :=
  match x with
  | some s => s = ""
  | none => true

/-- Exceptions raised by the pipeline, by spec taxonomy name; each doc
names the Python exception class it embeds. -/
inductive PyError where
  /-- ValueError from `_validate_env` (app.py lines 18-22). -/
  | configError (msg : String)
  /-- RuntimeError raised when pg_dump cannot be executed (app.py line 69). -/
  | toolNotFound (msg : String)
  /-- subprocess.CalledProcessError from a non-zero pg_dump exit (line 65). -/
  | dumpFailed (code : Nat) (cmd : List String)
  /-- OSError and friends from the gzip copy (app.py lines 76-77). -/
  | storageIoError (msg : String)
  /-- Exceptions from the google-cloud-storage client (app.py lines 81-87). -/
  | uploadFailed (msg : String)
deriving Repr, DecidableEq

/-- Model of `_validate_env(db_url, bucket_name)` (app.py lines 18-22). -/
def validate_env (db_url bucket_name : Option String) : Except PyError Unit :=
  if isFalsy db_url then
    Except.error (PyError.configError "DATABASE_URL is not set")
  else if isFalsy bucket_name then
    Except.error (PyError.configError "BUCKET_NAME is not set")
  else
    Except.ok ()

/-- Python `s.rstrip(c)` for one character: drop every trailing `c`. -/
def rstripChar (c : Char) (s : String) : String :=
  String.mk ((s.data.reverse.dropWhile (fun x => x = c)).reverse)

/-- Python `s.lstrip(c)` for one character: drop every leading `c`. -/
def lstripChar (c : Char) (s : String) : String :=
  String.mk (s.data.dropWhile (fun x => x = c))

/-- Model of `_safe_blob_name` (app.py lines 25-28). -/
def safe_blob_name (pfx name : String) : String :=
  if pfx = "" then name
  else rstripChar '/' pfx ++ "/" ++ lstripChar '/' name

/-- A UTC wall-clock instant, the input to strftime. -/
structure UTCTime where
  year : Nat
  month : Nat
  day : Nat
  hour : Nat
  minute : Nat
  second : Nat
deriving Repr, DecidableEq

/-- Zero-pad a numeral to two digits, as strftime %m %d %H %M %S do. -/
def pad2 (n : Nat) : String :=
  if n < 10 then "0" ++ toString n else toString n

/-- Zero-pad a year to four digits, as strftime %Y does (glibc). -/
def pad4 (n : Nat) : String :=
  if n < 10 then "000" ++ toString n
  else if n < 100 then "00" ++ toString n
  else if n < 1000 then "0" ++ toString n
  else toString n

/-- Model of `datetime.now(timezone.utc).strftime("%Y%m%d-%H%M%S")` at
instant `t` (app.py line 50). -/
def strftimeTS (t : UTCTime) : String :=
  pad4 t.year ++ pad2 t.month ++ pad2 t.day ++ "-" ++
    pad2 t.hour ++ pad2 t.minute ++ pad2 t.second

/-- Outcome of the `subprocess.run` of pg_dump, decided by the world:
success writes the dump bytes to the output file; a non-zero exit leaves
whatever bytes were written; FileNotFoundError means the executable could
not be located. -/
inductive DumpOutcome where
  | ok (contents : List Nat)
  | exitNonzero (code : Nat) (written : List Nat)
  | notFound
deriving Repr, DecidableEq

/-- Outcome of the gzip copy (app.py lines 76-77). -/
inductive GzOutcome where
  | ok
  | ioFail (msg : String)
deriving Repr, DecidableEq

/-- Outcome of the GCS upload (app.py lines 81-87). -/
inductive UploadOutcome where
  | ok
  | fail (msg : String)
deriving Repr, DecidableEq

/-- Oracle for one run's external effects. `gzipEnc` is the gzip encoding
of a byte string; `removeOk i` says whether `os.remove` on temp file `i`
succeeds in the cleanup block. -/
structure World where
  dump : DumpOutcome
  gz : GzOutcome
  gzipEnc : List Nat → List Nat
  upload : UploadOutcome
  removeOk : Nat → Bool

/-- Observable side effects of a run, in order. Temp files are numbered:
0 is the `.sql` dump temp file, 1 the `.sql.gz` temp file. -/
inductive Event where
  | tempCreated (id : Nat) (suffix : String)
  | subprocessRun (cmd : List String)
  | gzipWrite (src dst : Nat)
  | clientCreated
  | uploadCalled (bucket blob : String) (pathId : Nat)
  | removed (id : Nat)
  | removeFailed (id : Nat)
deriving Repr, DecidableEq

/-- The dict returned by a successful `backup_db` (app.py line 92). -/
structure BackupResult where
  bucket : String
  blob : String
  size : Nat
deriving Repr, DecidableEq

/-- The temp-file name passed on the pg_dump command line for file `i`. -/
def tmpName (i : Nat) : String :=
  "/tmp/tmp" ++ toString i ++ (if i = 0 then ".sql" else ".sql.gz")

/-- Result of the `try` block of `backup_db` (app.py lines 58-96), before
the `finally` cleanup: the raised-or-returned result, the temp-file store
(id, contents), the event trace, and whether the gz temp file was created
(Python's check `'gz_path' in locals()`). -/
structure TryOut where
  result : Except PyError BackupResult
  fs : List (Nat × List Nat)
  events : List Event
  gzCreated : Option Nat
deriving Repr

/-- The body of `backup_db` from the creation of the `.sql` temp file
(app.py line 55) to the end of the `try` block (line 96): run pg_dump,
optionally gzip, create the storage client, upload, and build the result
dict; each failure aborts with the corresponding exception. -/
def backup_try (env : Env) (w : World) (dbUrl bucket pfx upload_name : String)
    (compress : Bool) : TryOut :=
  let ev0 : List Event := [Event.tempCreated 0 ".sql"]
  let cmdName := env.PG_DUMP_PATH.getD "pg_dump"
  let cmd : List String := [cmdName, "--dbname", dbUrl, "-f", tmpName 0]
  let ev1 := ev0 ++ [Event.subprocessRun cmd]
  match w.dump with
  | DumpOutcome.notFound =>
      { result := Except.error (PyError.toolNotFound ("pg_dump not found: " ++ cmdName)),
        fs := [(0, [])], events := ev1, gzCreated := none }
  | DumpOutcome.exitNonzero code written =>
      { result := Except.error (PyError.dumpFailed code cmd),
        fs := [(0, written)], events := ev1, gzCreated := none }
  | DumpOutcome.ok contents =>
      if compress then
        let ev2 := ev1 ++ [Event.tempCreated 1 ".sql.gz"]
        match w.gz with
        | GzOutcome.ioFail msg =>
            { result := Except.error (PyError.storageIoError msg),
              fs := [(0, contents), (1, [])], events := ev2, gzCreated := some 1 }
        | GzOutcome.ok =>
            let fs2 : List (Nat × List Nat) := [(0, contents), (1, w.gzipEnc contents)]
            let ev3 := ev2 ++ [Event.gzipWrite 0 1, Event.clientCreated]
            let blob_name := safe_blob_name pfx upload_name
            let ev4 := ev3 ++ [Event.uploadCalled bucket blob_name 1]
            match w.upload with
            | UploadOutcome.fail msg =>
                { result := Except.error (PyError.uploadFailed msg),
                  fs := fs2, events := ev4, gzCreated := some 1 }
            | UploadOutcome.ok =>
                { result := Except.ok
                    { bucket := bucket, blob := blob_name,
                      size := (w.gzipEnc contents).length },
                  fs := fs2, events := ev4, gzCreated := some 1 }
      else
        let fs2 : List (Nat × List Nat) := [(0, contents)]
        let ev3 := ev1 ++ [Event.clientCreated]
        let blob_name := safe_blob_name pfx upload_name
        let ev4 := ev3 ++ [Event.uploadCalled bucket blob_name 0]
        match w.upload with
        | UploadOutcome.fail msg =>
            { result := Except.error (PyError.uploadFailed msg),
              fs := fs2, events := ev4, gzCreated := none }
        | UploadOutcome.ok =>
            { result := Except.ok
                { bucket := bucket, blob := blob_name, size := contents.length },
              fs := fs2, events := ev4, gzCreated := none }

/-- One guarded removal from the `finally` block (app.py lines 99-103 and
106-110): `if os.path.exists(p): os.remove(p)` wrapped in
`try/except Exception`, so a failed removal only logs. -/
def cleanupStep (w : World) (i : Nat)
    (st : List (Nat × List Nat) × List Event) :
    List (Nat × List Nat) × List Event :=
  if st.1.any (fun p => p.1 == i) then
    if w.removeOk i then
      (st.1.filter (fun p => !(p.1 == i)), st.2 ++ [Event.removed i])
    else
      (st.1, st.2 ++ [Event.removeFailed i])
  else st

/-- The `finally` block of `backup_db` (app.py lines 97-110): remove the
`.sql` temp file if it exists, swallowing (but logging) any error; then,
when compression was requested and the gz temp file was created
(Python's `'gz_path' in locals()`), remove it the same way. Returns the
remaining files and the extended trace. -/
def cleanup (w : World) (compress : Bool) (gzCreated : Option Nat)
    (fs : List (Nat × List Nat)) (events : List Event) :
    List (Nat × List Nat) × List Event :=
  let st1 := cleanupStep w 0 (fs, events)
  if compress then
    match gzCreated with
    | some g => cleanupStep w g st1
    | none => st1
  else st1

/-- The full observable outcome of one `backup_db` run. -/
structure RunOutput where
  result : Except PyError BackupResult
  fs : List (Nat × List Nat)
  events : List Event
deriving Repr

/-- Model of `backup_db(db_url, bucket_name, backup_prefix, compress)`
(app.py lines 31-110): resolve configuration against the environment,
validate it, then create the dump temp file, run the try body, and always
run the cleanup; the cleanup never alters the result. In Python the
parameters default to None, None, None, True. -/
def backup_db (env : Env) (w : World) (t : UTCTime)
    (db_url bucket_name bkpPfx : Option String) (compress : Bool) : RunOutput :=
  let dbU := pyOr db_url env.DATABASE_URL
  let bkt := pyOr bucket_name env.BUCKET_NAME
  let pfx := resolvePfx bkpPfx env
  match validate_env dbU bkt with
  | Except.error e => { result := Except.error e, fs := [], events := [] }
  | Except.ok _ =>
      let timestamp := strftimeTS t
      let base_name := "backup-" ++ timestamp ++ ".sql"
      let upload_name := base_name ++ (if compress then ".gz" else "")
      let b := backup_try env w (dbU.getD "") (bkt.getD "") pfx upload_name compress
      let fin := cleanup w compress b.gzCreated b.fs b.events
      { result := b.result, fs := fin.1, events := fin.2 }

/-- Calling `backup_db()` with every Python default:
db_url=None, bucket_name=None, backup_prefix=None, compress=True
(app.py line 31). -/
def backup_db_defaults (env : Env) (w : World) (t : UTCTime) : RunOutput :=
  backup_db env w t none none none true

/-- Python `s.lower()`, characterwise (ASCII case folding suffices for the
spellings compared in `_env_bool`). -/
def pyLower (s : String) : String :=
  String.mk (s.data.map Char.toLower)

/-- Model of `_env_bool(name, default)` applied to the value of the
variable (app.py lines 113-117): absent means the default; otherwise false exactly
when the lowercased value is one of "0", "false", "no", "n". -/
def env_bool (v : Option String) (dflt : Bool) : Bool :=
  match v with
  | none => dflt
  | some s => !(["0", "false", "no", "n"].contains (pyLower s))

/-- Model of `main()` (app.py lines 120-131): read the four variables and call
`backup_db` with them, compression from `_env_bool("BACKUP_COMPRESS", True)`. -/
def main (env : Env) (w : World) (t : UTCTime) : RunOutput :=
  backup_db env w t env.DATABASE_URL env.BUCKET_NAME env.BACKUP_PFX
    (env_bool env.BACKUP_COMPRESS true)

/-- A JSON scalar as produced by flask.jsonify on the dicts in app.py. -/
inductive JsonVal where
  | str (s : String)
  | num (n : Nat)
deriving Repr, DecidableEq

/-- An HTTP response: status code and JSON object body (field, value). -/
structure HttpResponse where
  status : Nat
  body : List (String × JsonVal)
deriving Repr, DecidableEq

/-- Python `str(e)` for each modelled exception. -/
def pyStrError : PyError → String
  | PyError.configError m => m
  | PyError.toolNotFound m => m
  | PyError.dumpFailed code cmd =>
      "Command " ++ reprStr cmd ++ " returned non-zero exit status " ++
        toString code ++ "."
  | PyError.storageIoError m => m
  | PyError.uploadFailed m => m

/-- The `/` health route (app.py lines 137-139): body "ok", status 200. -/
def health_route : String × Nat := ("ok", 200)

/-- The pipeline run performed by the `/backup` route (app.py line 145):
`backup_db()` with no arguments, so every parameter takes its default. -/
def trigger_run (env : Env) (w : World) (t : UTCTime) : RunOutput :=
  backup_db_defaults env w t

/-- The `/backup` route `trigger_backup` (app.py lines 141-149): 200 with
the result dict on success, 500 with the error message on any exception. -/
def trigger_route (env : Env) (w : World) (t : UTCTime) : HttpResponse :=
  match (trigger_run env w t).result with
  | Except.ok r =>
      { status := 200,
        body := [("bucket", JsonVal.str r.bucket), ("blob", JsonVal.str r.blob),
                 ("size", JsonVal.num r.size)] }
  | Except.error e =>
      { status := 500, body := [("error", JsonVal.str (pyStrError e))] }

/-- Object key pattern transcribed from the spec's words
(spec section 3): `{prefix/}backup-{UTC timestamp: YYYYMMDD-HHMMSS}.sql{.gz if compressed}`,
with an empty key prefix contributing no segment and no leading slash. -/
def specObjectKey (pfx : String) (t : UTCTime) (compress : Bool) : String :=
  (if pfx = "" then "" else pfx ++ "/") ++
    ("backup-" ++ strftimeTS t ++ ".sql" ++ (if compress then ".gz" else ""))

/-- Whether a string ends in ".gz". -/
def hasGzSuffix (s : String) : Bool :=
  s.data.reverse.take 3 == ['z', 'g', '.']

/-- Events that touch the object store: creating the storage client or
calling upload. -/
def isUploadEvent : Event → Bool
  | Event.clientCreated => true
  | Event.uploadCalled _ _ _ => true
  | _ => false

/-- No event in the trace touches the object store. -/
def noUpload (evs : List Event) : Prop :=
  evs.all (fun e => !(isUploadEvent e)) = true

/-- Events that belong to the compression step: creating the gz temp file
or performing the gzip copy. -/
def isGzEvent : Event → Bool
  | Event.tempCreated _ s => s == ".sql.gz"
  | Event.gzipWrite _ _ => true
  | _ => false

/-- Sample environment: both required variables set, compression toggle
set to the falsy spelling "false". -/
def env0 : Env :=
  { DATABASE_URL := some "postgres://db", BUCKET_NAME := some "bkt",
    BACKUP_PFX := none, PG_DUMP_PATH := none,
    BACKUP_COMPRESS := some "false" }

/-- Sample environment with no database URL set. -/
def envNoDb : Env :=
  { DATABASE_URL := none, BUCKET_NAME := some "bkt", BACKUP_PFX := none,
    PG_DUMP_PATH := none, BACKUP_COMPRESS := none }

/-- Sample world where every external step succeeds: the dump writes three
bytes and gzip encodes any input to two bytes. -/
def w0 : World :=
  { dump := DumpOutcome.ok [10, 20, 30], gz := GzOutcome.ok,
    gzipEnc := fun _ => [1, 2], upload := UploadOutcome.ok,
    removeOk := fun _ => true }

/-- Sample world where pg_dump exits with status 1. -/
def wDumpFail : World :=
  { w0 with dump := DumpOutcome.exitNonzero 1 [7] }

/-- Sample world where the pg_dump executable is missing. -/
def wNotFound : World :=
  { w0 with dump := DumpOutcome.notFound }

/-- Sample world where every removal in the cleanup block fails. -/
def wRemoveFail : World :=
  { w0 with removeOk := fun _ => false }

/-- Sample instant 2024-01-02T03:04:05Z. -/
def t0 : UTCTime := ⟨2024, 1, 2, 3, 4, 5⟩

theorem strData_append (s t : String) : (s ++ t).data = s.data ++ t.data := by
  cases s
  cases t
  rfl

/-- C10: `_env_bool` returns false exactly when the lowercased value is one
of "0", "false", "no", "n"; it returns the default when the variable is
unset ("true" for BACKUP_COMPRESS, as passed by `main`); spellings such as
"off" and "disabled" count as true; and `main` derives the compression
flag as `_env_bool("BACKUP_COMPRESS", True)`. -/
theorem env_bool_characterisation :
    (∀ v d, env_bool (some v) d = false ↔
      (pyLower v = "0" ∨ pyLower v = "false" ∨ pyLower v = "no" ∨
        pyLower v = "n")) ∧
    (∀ d, env_bool none d = d) ∧
    env_bool (some "off") true = true ∧
    env_bool (some "disabled") true = true ∧
    (∀ env w t, main env w t =
      backup_db env w t env.DATABASE_URL env.BUCKET_NAME env.BACKUP_PFX
        (env_bool env.BACKUP_COMPRESS true)) := by
  refine ⟨?_, fun d => rfl, by decide, by decide, fun env w t => rfl⟩
  intro v d
  simp [env_bool, List.contains]
  tauto

/-- Witness for C10 at a concrete input: the uppercase spelling "FALSE"
is falsy and an unset variable yields the default. -/
theorem env_bool_characterisation_witness :
    env_bool (some "FALSE") true = false ∧ env_bool none false = false :=
  ⟨(env_bool_characterisation.1 "FALSE" true).mpr (Or.inr (Or.inl (by decide))),
    env_bool_characterisation.2.1 false⟩

/-- C2: when the resolved database URL or the resolved bucket name is
falsy (absent or empty), `backup_db` stops with a configuration error
(ValueError) before any side effect: the event trace is empty (no temp
file creation, no subprocess, no storage-client use) and no temp file
exists. -/
theorem config_error_before_side_effects (env : Env) (w : World) (t : UTCTime)
    (a b p : Option String) (c : Bool)
    (h : isFalsy (pyOr a env.DATABASE_URL) = true ∨
      isFalsy (pyOr b env.BUCKET_NAME) = true) :
    (∃ m, (backup_db env w t a b p c).result =
      Except.error (PyError.configError m)) ∧
    (backup_db env w t a b p c).events = [] ∧
    (backup_db env w t a b p c).fs = [] := by
  unfold backup_db
  cases hdb : isFalsy (pyOr a env.DATABASE_URL) with
  | true => simp [validate_env, hdb]
  | false =>
      rcases h with h | h
      · rw [hdb] at h
        exact absurd h (by decide)
      · simp [validate_env, hdb, h]

/-- Witness for C2 at a concrete input: with DATABASE_URL unset and no
explicit database URL, the run fails with a configuration error and the
trace and temp-file store are empty. -/
theorem config_error_before_side_effects_witness :
    (∃ m, (backup_db envNoDb w0 t0 none none none true).result =
      Except.error (PyError.configError m)) ∧
    (backup_db envNoDb w0 t0 none none none true).events = [] ∧
    (backup_db envNoDb w0 t0 none none none true).fs = [] :=
  config_error_before_side_effects envNoDb w0 t0 none none none true
    (Or.inl (by decide))

theorem noUpload_cleanupStep (w : World) (i : Nat)
    (st : List (Nat × List Nat) × List Event) (h : noUpload st.2) :
    noUpload (cleanupStep w i st).2 := by
  unfold cleanupStep
  split
  · split
    · simpa [noUpload, List.all_append, isUploadEvent] using h
    · simpa [noUpload, List.all_append, isUploadEvent] using h
  · exact h

theorem noUpload_cleanup (w : World) (c : Bool) (gz : Option Nat)
    (fs : List (Nat × List Nat)) (evs : List Event) (h : noUpload evs) :
    noUpload (cleanup w c gz fs evs).2 := by
  unfold cleanup
  have h1 : noUpload (cleanupStep w 0 (fs, evs)).2 :=
    noUpload_cleanupStep w 0 (fs, evs) h
  split
  · cases gz with
    | some g => exact noUpload_cleanupStep w g _ h1
    | none => exact h1
  · exact h1

/-- C3: once configuration validates, a non-zero pg_dump exit makes
`backup_db` fail with the dump-failure error (CalledProcessError) and a
missing pg_dump executable makes it fail with the tool-not-found error
(RuntimeError); in both cases the uploader is never invoked: no
storage client is created and no upload call appears in the trace. -/
theorem dump_failure_stops_pipeline (env : Env) (w : World) (t : UTCTime)
    (a b p : Option String) (c : Bool)
    (hdb : isFalsy (pyOr a env.DATABASE_URL) = false)
    (hbk : isFalsy (pyOr b env.BUCKET_NAME) = false) :
    (∀ code written, w.dump = DumpOutcome.exitNonzero code written →
      (∃ cmd, (backup_db env w t a b p c).result =
        Except.error (PyError.dumpFailed code cmd)) ∧
      noUpload (backup_db env w t a b p c).events) ∧
    (w.dump = DumpOutcome.notFound →
      (∃ m, (backup_db env w t a b p c).result =
        Except.error (PyError.toolNotFound m)) ∧
      noUpload (backup_db env w t a b p c).events) := by
  constructor
  · intro code written hd
    unfold backup_db
    simp only [validate_env, hdb, hbk, Bool.false_eq_true, if_false]
    constructor
    · simp [backup_try, hd]
    · exact noUpload_cleanup _ _ _ _ _ (by simp [backup_try, hd, noUpload, isUploadEvent])
  · intro hd
    unfold backup_db
    simp only [validate_env, hdb, hbk, Bool.false_eq_true, if_false]
    constructor
    · simp [backup_try, hd]
    · exact noUpload_cleanup _ _ _ _ _ (by simp [backup_try, hd, noUpload, isUploadEvent])

/-- Witness for C3 at concrete inputs: with pg_dump exiting 1 the run
raises the dump-failure error without touching the object store, and with
pg_dump missing it raises the tool-not-found error likewise. -/
theorem dump_failure_stops_pipeline_witness :
    ((∃ cmd, (backup_db env0 wDumpFail t0 none none none true).result =
      Except.error (PyError.dumpFailed 1 cmd)) ∧
     noUpload (backup_db env0 wDumpFail t0 none none none true).events) ∧
    ((∃ m, (backup_db env0 wNotFound t0 none none none true).result =
      Except.error (PyError.toolNotFound m)) ∧
     noUpload (backup_db env0 wNotFound t0 none none none true).events) :=
  ⟨(dump_failure_stops_pipeline env0 wDumpFail t0 none none none true
      (by decide) (by decide)).1 1 [7] rfl,
   (dump_failure_stops_pipeline env0 wNotFound t0 none none none true
      (by decide) (by decide)).2 rfl⟩

/-- C1: on every exit path of `backup_db`, cleanup of the run's temp files
is total and non-masking: (i) when the operating system honours the
removals, no temp file survives the run; (ii) the run's result or error is
the same whatever the removals do, so a cleanup failure never overrides
the original outcome; (iii) a failed removal of the dump temp file is
logged as a remove-failed event. -/
theorem cleanup_on_every_exit_path (env : Env) (w : World) (t : UTCTime)
    (a b p : Option String) (c : Bool) :
    ((∀ i, w.removeOk i = true) → (backup_db env w t a b p c).fs = []) ∧
    (∀ f, (backup_db env { w with removeOk := f } t a b p c).result =
      (backup_db env w t a b p c).result) ∧
    (w.removeOk 0 = false → isFalsy (pyOr a env.DATABASE_URL) = false →
      isFalsy (pyOr b env.BUCKET_NAME) = false →
      Event.removeFailed 0 ∈ (backup_db env w t a b p c).events) := by
  refine ⟨?_, ?_, ?_⟩
  · intro h
    unfold backup_db
    cases hv : validate_env (pyOr a env.DATABASE_URL) (pyOr b env.BUCKET_NAME) with
    | error e => simp [hv]
    | ok u =>
        cases hd : w.dump with
        | notFound => cases c <;> simp [hv, backup_try, hd, cleanup, cleanupStep, h 0]
        | exitNonzero code written =>
            cases c <;> simp [hv, backup_try, hd, cleanup, cleanupStep, h 0]
        | ok contents =>
            cases c with
            | false =>
                cases hu : w.upload <;>
                  simp [hv, backup_try, hd, hu, cleanup, cleanupStep, h 0]
            | true =>
                cases hg : w.gz with
                | ioFail m =>
                    simp [hv, backup_try, hd, hg, cleanup, cleanupStep, h 0, h 1]
                | ok =>
                    cases hu : w.upload <;>
                      simp [hv, backup_try, hd, hg, hu, cleanup, cleanupStep, h 0, h 1]
  · intro f
    cases w with
    | mk d g ge u r =>
        unfold backup_db
        cases hv : validate_env (pyOr a env.DATABASE_URL) (pyOr b env.BUCKET_NAME) with
        | error e => simp [hv]
        | ok v => simp [hv, backup_try]
  · intro h0 hdb hbk
    unfold backup_db
    simp only [validate_env, hdb, hbk, Bool.false_eq_true, if_false]
    cases hd : w.dump with
    | notFound => cases c <;> simp [backup_try, hd, cleanup, cleanupStep, h0]
    | exitNonzero code written =>
        cases c <;> simp [backup_try, hd, cleanup, cleanupStep, h0]
    | ok contents =>
        cases c with
        | false =>
            cases hu : w.upload <;>
              simp [backup_try, hd, hu, cleanup, cleanupStep, h0]
        | true =>
            cases hg : w.gz with
            | ioFail m =>
                cases hr1 : w.removeOk 1 <;>
                  simp [backup_try, hd, hg, cleanup, cleanupStep, h0, hr1]
            | ok =>
                cases hu : w.upload <;> cases hr1 : w.removeOk 1 <;>
                  simp [backup_try, hd, hg, hu, cleanup, cleanupStep, h0, hr1]

/-- Witness for C1 at concrete inputs: a fully successful compressed run
leaves no temp file; making every removal fail does not change the run's
result; and a failing removal of the dump temp file is logged. -/
theorem cleanup_on_every_exit_path_witness :
    (backup_db env0 w0 t0 none none none true).fs = [] ∧
    (backup_db env0 { w0 with removeOk := fun _ => false } t0
      none none none true).result =
      (backup_db env0 w0 t0 none none none true).result ∧
    Event.removeFailed 0 ∈ (backup_db env0 wRemoveFail t0 none none none true).events :=
  ⟨(cleanup_on_every_exit_path env0 w0 t0 none none none true).1 (fun _ => rfl),
   (cleanup_on_every_exit_path env0 w0 t0 none none none true).2.1 (fun _ => false),
   (cleanup_on_every_exit_path env0 wRemoveFail t0 none none none true).2.2
     rfl (by decide) (by decide)⟩

theorem mkData (s : String) : String.mk s.data = s := by
  cases s
  rfl

theorem strAppend_assoc (a b c : String) : (a ++ b) ++ c = a ++ (b ++ c) := by
  cases a with
  | mk la =>
      cases b with
      | mk lb =>
          cases c with
          | mk lc =>
              show String.mk ((la ++ lb) ++ lc) = String.mk (la ++ (lb ++ lc))
              rw [List.append_assoc]

theorem strAppend_empty (s : String) : s ++ "" = s := by
  cases s with
  | mk l =>
      show String.mk (l ++ []) = String.mk l
      rw [List.append_nil]

theorem strEmpty_append (s : String) : "" ++ s = s := by
  cases s
  rfl

theorem hasGzSuffix_ends_sql (s u : String) (h : u = s ++ ".sql") :
    hasGzSuffix u = false := by
  subst h
  have hd : (s ++ ".sql").data = s.data ++ ['.', 's', 'q', 'l'] := by
    rw [strData_append]
  unfold hasGzSuffix
  rw [hd, List.reverse_append]
  rfl

theorem lstrip_backup (s : String) :
    lstripChar '/' ("backup-" ++ s) = "backup-" ++ s := by
  unfold lstripChar
  have hd : ("backup-" ++ s).data = 'b' :: ("ackup-".data ++ s.data) := by
    rw [strData_append]
    rfl
  rw [hd]
  rw [List.dropWhile_cons]
  rw [if_neg (by decide)]
  rw [← hd, mkData]

theorem all_cleanupStep (P : Event → Bool)
    (hP : ∀ i, P (Event.removed i) = true ∧ P (Event.removeFailed i) = true)
    (w : World) (i : Nat) (st : List (Nat × List Nat) × List Event)
    (h : st.2.all P = true) : (cleanupStep w i st).2.all P = true := by
  unfold cleanupStep
  split
  · split
    · simp [List.all_append, h, (hP i).1]
    · simp [List.all_append, h, (hP i).2]
  · exact h

theorem all_cleanup (P : Event → Bool)
    (hP : ∀ i, P (Event.removed i) = true ∧ P (Event.removeFailed i) = true)
    (w : World) (c : Bool) (gz : Option Nat) (fs : List (Nat × List Nat))
    (evs : List Event) (h : evs.all P = true) :
    ((cleanup w c gz fs evs).2).all P = true := by
  unfold cleanup
  have h1 := all_cleanupStep P hP w 0 (fs, evs) h
  split
  · cases gz with
    | some g => exact all_cleanupStep P hP w g _ h1
    | none => exact h1
  · exact h1

/-- C5: with compression disabled the compressor is skipped entirely: the
trace contains no gz temp-file creation and no gzip write, every upload
call uploads the raw dump temp file (file 0), and a successful run's
object key does not end in ".gz". -/
theorem compress_disabled_skips_compressor (env : Env) (w : World)
    (t : UTCTime) (a b p : Option String) :
    ((backup_db env w t a b p false).events.all
      (fun e => !(isGzEvent e)) = true) ∧
    (∀ bkt bl pth,
      Event.uploadCalled bkt bl pth ∈ (backup_db env w t a b p false).events →
      pth = 0) ∧
    (∀ r, (backup_db env w t a b p false).result = Except.ok r →
      hasGzSuffix r.blob = false) := by
  have hgz : ∀ i, (fun e => !(isGzEvent e)) (Event.removed i) = true ∧
      (fun e => !(isGzEvent e)) (Event.removeFailed i) = true := by
    intro i
    exact ⟨rfl, rfl⟩
  have hup : ∀ i,
      (fun e => match e with
        | Event.uploadCalled _ _ pth => pth == 0
        | _ => true) (Event.removed i) = true ∧
      (fun e => match e with
        | Event.uploadCalled _ _ pth => pth == 0
        | _ => true) (Event.removeFailed i) = true := by
    intro i
    exact ⟨rfl, rfl⟩
  refine ⟨?_, ?_, ?_⟩
  · unfold backup_db
    cases hv : validate_env (pyOr a env.DATABASE_URL) (pyOr b env.BUCKET_NAME) with
    | error e => simp [hv]
    | ok u =>
        simp only [hv]
        apply all_cleanup _ hgz
        cases hd : w.dump with
        | notFound => simp [backup_try, hd, isGzEvent]
        | exitNonzero code written => simp [backup_try, hd, isGzEvent]
        | ok contents =>
            cases hu : w.upload <;> simp [backup_try, hd, hu, isGzEvent]
  · intro bkt bl pth hmem
    have hall : (backup_db env w t a b p false).events.all
        (fun e => match e with
          | Event.uploadCalled _ _ pth => pth == 0
          | _ => true) = true := by
      unfold backup_db
      cases hv : validate_env (pyOr a env.DATABASE_URL) (pyOr b env.BUCKET_NAME) with
      | error e => simp [hv]
      | ok u =>
          simp only [hv]
          apply all_cleanup _ hup
          cases hd : w.dump with
          | notFound => simp [backup_try, hd]
          | exitNonzero code written => simp [backup_try, hd]
          | ok contents =>
              cases hu : w.upload <;> simp [backup_try, hd, hu]
    have := List.all_eq_true.mp hall _ hmem
    simpa using this
  · intro r hr
    unfold backup_db at hr
    cases hv : validate_env (pyOr a env.DATABASE_URL) (pyOr b env.BUCKET_NAME) with
    | error e => simp [hv] at hr
    | ok u =>
        simp only [hv] at hr
        cases hd : w.dump with
        | notFound => simp [backup_try, hd] at hr
        | exitNonzero code written => simp [backup_try, hd] at hr
        | ok contents =>
            cases hu : w.upload with
            | fail m => simp [backup_try, hd, hu] at hr
            | ok =>
                simp only [backup_try, hd, hu] at hr
                simp at hr
                rw [← hr]
                show hasGzSuffix (safe_blob_name (resolvePfx p env)
                  ("backup-" ++ strftimeTS t ++ ".sql")) = false
                unfold safe_blob_name
                split
                · exact hasGzSuffix_ends_sql ("backup-" ++ strftimeTS t) _ rfl
                · rw [strAppend_assoc "backup-" (strftimeTS t) ".sql",
                    lstrip_backup (strftimeTS t ++ ".sql")]
                  exact hasGzSuffix_ends_sql
                    (rstripChar '/' (resolvePfx p env) ++ "/" ++
                      ("backup-" ++ strftimeTS t)) _
                    (by rw [strAppend_assoc
                        (rstripChar '/' (resolvePfx p env) ++ "/")
                        ("backup-" ++ strftimeTS t) ".sql",
                      strAppend_assoc "backup-" (strftimeTS t) ".sql"])

/-- Witness for C5 at a concrete input: an uncompressed successful run has
no compression event, uploads file 0, and its key ends in ".sql". -/
theorem compress_disabled_skips_compressor_witness :
    ((backup_db env0 w0 t0 none none none false).events.all
      (fun e => !(isGzEvent e)) = true) ∧
    ((backup_db env0 w0 t0 none none none false).result =
      Except.ok { bucket := "bkt", blob := "backup-20240102-030405.sql",
                  size := 3 } →
      hasGzSuffix (BackupResult.mk "bkt" "backup-20240102-030405.sql" 3).blob
        = false) :=
  ⟨(compress_disabled_skips_compressor env0 w0 t0 none none none).1,
   (compress_disabled_skips_compressor env0 w0 t0 none none none).2.2 _⟩

theorem safe_blob_name_eq (pfx n : String) (hp : rstripChar '/' pfx = pfx)
    (hn : lstripChar '/' n = n) :
    safe_blob_name pfx n = (if pfx = "" then "" else pfx ++ "/") ++ n := by
  unfold safe_blob_name
  split
  case isTrue h => exact (strEmpty_append n).symm
  case isFalse h => rw [hp, hn]

theorem lstrip_upload_name (ts sfx : String) :
    lstripChar '/' ("backup-" ++ ts ++ ".sql" ++ sfx) =
      "backup-" ++ ts ++ ".sql" ++ sfx := by
  rw [strAppend_assoc ("backup-" ++ ts) ".sql" sfx,
    strAppend_assoc "backup-" ts (".sql" ++ sfx)]
  exact lstrip_backup (ts ++ (".sql" ++ sfx))

/-- C4: for any run of `backup_db` that succeeds, the object key equals
the deterministic spec pattern `{prefix/}backup-YYYYMMDD-HHMMSS.sql{.gz}`
built from the resolved prefix, the UTC timestamp, and the compression
flag alone (an empty prefix contributes no segment and no leading slash);
the hypothesis says the prefix carries no trailing slash, the one case
where the code normalises it. -/
theorem object_key_matches_documented_pattern (env : Env) (w : World)
    (t : UTCTime) (a b p : Option String) (c : Bool) (r : BackupResult)
    (hres : (backup_db env w t a b p c).result = Except.ok r)
    (hp : rstripChar '/' (resolvePfx p env) = resolvePfx p env) :
    r.blob = specObjectKey (resolvePfx p env) t c := by
  unfold backup_db at hres
  cases hv : validate_env (pyOr a env.DATABASE_URL) (pyOr b env.BUCKET_NAME) with
  | error e => simp [hv] at hres
  | ok u =>
      simp only [hv] at hres
      cases hd : w.dump with
      | notFound => simp [backup_try, hd] at hres
      | exitNonzero code written => simp [backup_try, hd] at hres
      | ok contents =>
          cases c with
          | false =>
              cases hu : w.upload with
              | fail m => simp [backup_try, hd, hu] at hres
              | ok =>
                  simp only [backup_try, hd, hu] at hres
                  simp at hres
                  rw [← hres]
                  show safe_blob_name (resolvePfx p env)
                      ("backup-" ++ strftimeTS t ++ ".sql") =
                    specObjectKey (resolvePfx p env) t false
                  rw [show ("backup-" ++ strftimeTS t ++ ".sql") =
                      ("backup-" ++ strftimeTS t ++ ".sql" ++ "") from
                      (strAppend_empty _).symm,
                    safe_blob_name_eq _ _ hp (lstrip_upload_name _ _)]
                  rfl
          | true =>
              cases hg : w.gz with
              | ioFail m => simp [backup_try, hd, hg] at hres
              | ok =>
                  cases hu : w.upload with
                  | fail m => simp [backup_try, hd, hg, hu] at hres
                  | ok =>
                      simp only [backup_try, hd, hg, hu] at hres
                      simp at hres
                      rw [← hres]
                      show safe_blob_name (resolvePfx p env)
                          ("backup-" ++ strftimeTS t ++ ".sql" ++ ".gz") =
                        specObjectKey (resolvePfx p env) t true
                      rw [safe_blob_name_eq _ _ hp (lstrip_upload_name _ _)]
                      rfl

/-- Witness for C4 at the spec's own example: prefix "nightly" with
compression at 2024-01-02T03:04:05Z yields exactly
"nightly/backup-20240102-030405.sql.gz". -/
theorem object_key_matches_documented_pattern_witness :
    (backup_db env0 w0 t0 none none (some "nightly") true).result =
      Except.ok { bucket := "bkt",
                  blob := "nightly/backup-20240102-030405.sql.gz",
                  size := 2 } ∧
    (BackupResult.mk "bkt" "nightly/backup-20240102-030405.sql.gz" 2).blob =
      specObjectKey (resolvePfx (some "nightly") env0) t0 true ∧
    specObjectKey (resolvePfx (some "nightly") env0) t0 true =
      "nightly/backup-20240102-030405.sql.gz" :=
  ⟨rfl,
   object_key_matches_documented_pattern env0 w0 t0 none none (some "nightly")
     true _ rfl (by decide),
   by decide⟩

/-- C9: with compression enabled and the gzip copy succeeding, after the
compressor step of the try body both files exist at distinct paths: the
dump temp file (file 0) still holds the full dump contents, and the gz
temp file (file 1) is a newly created temp file holding the gzip encoding
of those contents; this holds whatever the upload then does. -/
theorem compressor_preserves_input (env : Env) (w : World)
    (dbUrl bucket pfx un : String) (contents : List Nat)
    (hd : w.dump = DumpOutcome.ok contents) (hg : w.gz = GzOutcome.ok) :
    (0, contents) ∈ (backup_try env w dbUrl bucket pfx un true).fs ∧
    (1, w.gzipEnc contents) ∈ (backup_try env w dbUrl bucket pfx un true).fs ∧
    (backup_try env w dbUrl bucket pfx un true).gzCreated = some 1 ∧
    Event.tempCreated 1 ".sql.gz" ∈
      (backup_try env w dbUrl bucket pfx un true).events := by
  cases hu : w.upload <;> simp [backup_try, hd, hg, hu]

/-- Witness for C9 at a concrete input: dump bytes [10,20,30] stay intact
in file 0 while file 1 receives their gzip encoding [1,2]. -/
theorem compressor_preserves_input_witness :
    (0, [10, 20, 30]) ∈ (backup_try env0 w0 "postgres://db" "bkt" ""
      "backup-20240102-030405.sql.gz" true).fs ∧
    (1, [1, 2]) ∈ (backup_try env0 w0 "postgres://db" "bkt" ""
      "backup-20240102-030405.sql.gz" true).fs ∧
    Event.tempCreated 1 ".sql.gz" ∈ (backup_try env0 w0 "postgres://db" "bkt"
      "" "backup-20240102-030405.sql.gz" true).events :=
  ⟨(compressor_preserves_input env0 w0 "postgres://db" "bkt" ""
      "backup-20240102-030405.sql.gz" [10, 20, 30] rfl rfl).1,
   (compressor_preserves_input env0 w0 "postgres://db" "bkt" ""
      "backup-20240102-030405.sql.gz" [10, 20, 30] rfl rfl).2.1,
   (compressor_preserves_input env0 w0 "postgres://db" "bkt" ""
      "backup-20240102-030405.sql.gz" [10, 20, 30] rfl rfl).2.2.2⟩

/-- C7: the trigger route answers 200 with exactly the fields bucket,
blob, size of the pipeline result when the run succeeds, and 500 with an
error field holding the failure message when the run raises; the health
route always answers "ok" with status 200. -/
theorem http_responses_contract (env : Env) (w : World) (t : UTCTime) :
    (∀ r, (trigger_run env w t).result = Except.ok r →
      trigger_route env w t =
        { status := 200,
          body := [("bucket", JsonVal.str r.bucket),
                   ("blob", JsonVal.str r.blob),
                   ("size", JsonVal.num r.size)] }) ∧
    (∀ e, (trigger_run env w t).result = Except.error e →
      trigger_route env w t =
        { status := 500, body := [("error", JsonVal.str (pyStrError e))] }) ∧
    health_route = ("ok", 200) := by
  refine ⟨?_, ?_, rfl⟩
  · intro r hr
    unfold trigger_route
    rw [hr]
  · intro e he
    unfold trigger_route
    rw [he]

/-- Witness for C7 at concrete inputs: a succeeding run yields the 200
response with the result's fields, and a run failing on missing
configuration yields the 500 response carrying the message. -/
theorem http_responses_contract_witness :
    trigger_route env0 w0 t0 =
      { status := 200,
        body := [("bucket", JsonVal.str "bkt"),
                 ("blob", JsonVal.str "backup-20240102-030405.sql.gz"),
                 ("size", JsonVal.num 2)] } ∧
    trigger_route envNoDb w0 t0 =
      { status := 500,
        body := [("error", JsonVal.str "DATABASE_URL is not set")] } :=
  ⟨(http_responses_contract env0 w0 t0).1
     { bucket := "bkt", blob := "backup-20240102-030405.sql.gz", size := 2 }
     rfl,
   (http_responses_contract envNoDb w0 t0).2.1
     (PyError.configError "DATABASE_URL is not set") rfl⟩

/-- Counterexample to C6: with the environment compression toggle set to
the falsy spelling "false" (so `_env_bool` yields false), an HTTP-triggered
run still compresses: it creates the gz temp file, performs the gzip
write, and uploads a key ending in ".gz". The trigger calls `backup_db()`
with the Python default compress=True and never consults BACKUP_COMPRESS. -/
theorem http_trigger_ignores_compress_toggle_cex :
    env0.BACKUP_COMPRESS = some "false" ∧
    env_bool env0.BACKUP_COMPRESS true = false ∧
    Event.gzipWrite 0 1 ∈ (trigger_run env0 w0 t0).events ∧
    Event.tempCreated 1 ".sql.gz" ∈ (trigger_run env0 w0 t0).events ∧
    (trigger_run env0 w0 t0).result =
      Except.ok { bucket := "bkt", blob := "backup-20240102-030405.sql.gz",
                  size := 2 } :=
  ⟨rfl, rfl, by decide, by decide, rfl⟩

/-- C6 amended: an HTTP-triggered run takes its database URL, bucket name
and prefix from the environment (it is `backup_db` with every argument
defaulted), but its compression setting is the constant default true: the
run is wholly insensitive to the BACKUP_COMPRESS environment variable. -/
theorem http_trigger_env_config (env : Env) (w : World) (t : UTCTime)
    (s : Option String) :
    trigger_run { env with BACKUP_COMPRESS := s } w t = trigger_run env w t ∧
    trigger_run env w t = backup_db env w t none none none true := by
  constructor
  · cases env
    rfl
  · rfl

/-- Counterexample to C8: an explicitly supplied empty database URL does
not raise a configuration error when the environment variable is set; the
run falls back to the environment value (visible in the pg_dump command)
and succeeds. -/
theorem explicit_empty_arg_falls_back_cex :
    (backup_db env0 w0 t0 (some "") (some "bkt") none true).result =
      Except.ok { bucket := "bkt", blob := "backup-20240102-030405.sql.gz",
                  size := 2 } ∧
    env0.DATABASE_URL = some "postgres://db" ∧
    Event.subprocessRun
        ["pg_dump", "--dbname", "postgres://db", "-f", tmpName 0] ∈
      (backup_db env0 w0 t0 (some "") (some "bkt") none true).events :=
  ⟨rfl, rfl, by decide⟩

/-- C8 amended: configuration resolution gives a truthy (non-empty)
explicit argument precedence over the environment for the database URL,
the bucket name, and the prefix, while an explicitly supplied empty
string for any of them is treated as absent and falls back to the
environment (for the database URL and bucket name, failing with a
configuration error only when the merged value is still empty); the
prefix defaults to the empty string when neither argument nor environment
supplies one, and omitting the compression argument means compress=true. -/
theorem config_precedence_amended (env : Env) (w : World) (t : UTCTime) :
    (∀ d b p c, d ≠ "" → b ≠ "" →
      backup_db env w t (some d) (some b) p c =
        backup_db { env with DATABASE_URL := none, BUCKET_NAME := none } w t
          (some d) (some b) p c) ∧
    (∀ p2 a b c, p2 ≠ "" →
      resolvePfx (some p2) env = p2 ∧
      backup_db env w t a b (some p2) c =
        backup_db { env with BACKUP_PFX := none } w t a b (some p2) c) ∧
    (∀ b p c, backup_db env w t (some "") b p c =
      backup_db env w t none b p c) ∧
    (∀ a p c, backup_db env w t a (some "") p c =
      backup_db env w t a none p c) ∧
    (∀ a b c, backup_db env w t a b (some "") c =
      backup_db env w t a b none c) ∧
    (env.BACKUP_PFX = none → resolvePfx none env = "") ∧
    (∀ e2 w2 t2, backup_db_defaults e2 w2 t2 =
      backup_db e2 w2 t2 none none none true) := by
  refine ⟨?_, ?_, fun b p c => rfl, fun a p c => rfl, fun a b c => rfl, ?_,
    fun e2 w2 t2 => rfl⟩
  · intro d b p c hd hb
    cases env
    simp [backup_db, backup_try, resolvePfx, pyOr, hd, hb]
  · intro p2 a b c hp2
    constructor
    · simp [resolvePfx, pyOr, hp2]
    · cases env
      simp [backup_db, backup_try, resolvePfx, pyOr, hp2]
  · intro h
    simp [resolvePfx, pyOr, h]

/-- Witness for C8 (amended) at concrete inputs: a non-empty explicit URL
and bucket make the environment values irrelevant; a non-empty explicit
prefix resolves to itself and makes the environment prefix irrelevant; an
explicitly empty URL behaves exactly like an absent one; and with no
prefix anywhere the resolved prefix is empty. -/
theorem config_precedence_amended_witness :
    backup_db env0 w0 t0 (some "postgres://explicit") (some "b2") none true =
      backup_db { env0 with DATABASE_URL := none, BUCKET_NAME := none } w0 t0
        (some "postgres://explicit") (some "b2") none true ∧
    resolvePfx (some "nightly") { env0 with BACKUP_PFX := some "envpfx" } =
      "nightly" ∧
    backup_db { env0 with BACKUP_PFX := some "envpfx" } w0 t0 none none
        (some "nightly") true =
      backup_db env0 w0 t0 none none (some "nightly") true ∧
    backup_db env0 w0 t0 (some "") (some "b2") none true =
      backup_db env0 w0 t0 none (some "b2") none true ∧
    resolvePfx none env0 = "" :=
  ⟨(config_precedence_amended env0 w0 t0).1 "postgres://explicit" "b2" none
      true (by decide) (by decide),
   ((config_precedence_amended { env0 with BACKUP_PFX := some "envpfx" }
      w0 t0).2.1 "nightly" none none true (by decide)).1,
   ((config_precedence_amended { env0 with BACKUP_PFX := some "envpfx" }
      w0 t0).2.1 "nightly" none none true (by decide)).2,
   (config_precedence_amended env0 w0 t0).2.2.1 (some "b2") none true,
   (config_precedence_amended env0 w0 t0).2.2.2.2.2.1 rfl⟩

end BackupApp
